import Mathlib

/-!
Shallow embedding of the Secure_assess-core scan orchestration and
category-mapping/scoring engine, translated from the Python sources:

* `src/services/compliance/framework_categories.py` — framework registry
  (OWASP / CIS / NIST category tables) and the check-to-category mapping.
* `src/services/scanning/category_checker.py` — `CategoryCheckRunner`:
  `categorize_findings`, `_map_bandit_to_categories`,
  `_map_semgrep_to_categories`, `calculate_category_scores`,
  `calculate_overall_score`.
* `src/services/scanning/orchestrator.py` — `ScanOrchestrator.initiate_scan`.
* `src/workers/sast_worker.py`, `src/workers/dast_worker.py` — the merge of a
  completed analysis type's result into the shared scan record.

Numbers are embedded as `ℚ` (Python floats appear only as decimal literals
and arithmetic on values that the code keeps exact at this scale); Python's
`round(x, 2)` is embedded as round-half-to-even at two decimal places.
Python dicts are embedded as insertion-ordered association lists, and
`dict.get` with a default as an `Option`-valued lookup with `getD`.
-/

namespace SecureAssess

/-- Python `s.upper()` (all identifiers and severities here are ASCII):
uppercase every character. -/
def pyToUpper (s : String) : String := ⟨s.data.map Char.toUpper⟩

/-- Python `s.lower()`: lowercase every character. -/
def pyToLower (s : String) : String := ⟨s.data.map Char.toLower⟩

/-- Whether `pat` occurs at the head of `s` (character lists). -/
def startsWithChars : List Char → List Char → Bool
  | _, [] => true
  | [], _ :: _ => false
  | c :: cs, p :: ps => c = p && startsWithChars cs ps

/-- Whether `pat` occurs as a contiguous substring of `s`
(character lists). -/
def containsSub : List Char → List Char → Bool
  | [], pat => pat.isEmpty
  | c :: cs, pat => startsWithChars (c :: cs) pat || containsSub cs pat

/-- Round-half-to-even to an integer, matching Python's `round(x)` on exact
values: nearest integer, ties to the even neighbour. -/
def roundHalfEven (x : ℚ) : ℤ :=
  let f : ℤ := ⌊x⌋
  let frac : ℚ := x - f
  if frac < 1/2 then f
  else if 1/2 < frac then f + 1
  else if f % 2 = 0 then f else f + 1

/-- Python `round(x, 2)`: round to two decimal places, ties to even. -/
def round2 (x : ℚ) : ℚ := (roundHalfEven (x * 100) : ℚ) / 100

/-! ## Framework registry (`framework_categories.py`) -/

/-- The `CategoryDef` dataclass: definition of a security category within a
framework (`framework_categories.py`, lines 11–18). -/
structure CategoryDef where
  id : String
  name : String
  description : String
  priority : String
  checks : List String
deriving Repr, DecidableEq

/-- Table `OWASP_CATEGORIES` (`framework_categories.py`, lines 22–157). -/
def OWASP_CATEGORIES : List (String × CategoryDef) := [
  ("A01_BROKEN_ACCESS_CONTROL",
   { id := "A01", name := "Broken Access Control",
     description := "Still the leading risk, covering flaws that allow attackers to bypass authorization or gain unauthorized access.",
     priority := "High",
     checks := ["access_control_bypass", "privilege_escalation",
       "authorization_flaws", "insecure_direct_object_references",
       "cors_misconfiguration", "missing_access_controls"] }),
  ("A02_CRYPTOGRAPHIC_FAILURES",
   { id := "A02", name := "Cryptographic Failures",
     description := "Insecure or outdated encryption practices that expose sensitive data.",
     priority := "High",
     checks := ["weak_encryption", "hardcoded_secrets", "insecure_hashing",
       "exposed_credentials", "weak_tls", "insufficient_data_protection"] }),
  ("A03_INJECTION",
   { id := "A03", name := "Injection",
     description := "Classic input-validation flaws such as SQL, OS, and template injection that remain common across stacks.",
     priority := "High",
     checks := ["sql_injection", "os_command_injection", "template_injection",
       "xpath_injection", "ldap_injection", "code_injection"] }),
  ("A04_INSECURE_DESIGN",
   { id := "A04", name := "Insecure Design",
     description := "Missing or inadequate security controls in the design phase.",
     priority := "High",
     checks := ["missing_security_controls", "insecure_patterns",
       "rate_limiting_absent", "missing_authentication",
       "weak_session_management"] }),
  ("A05_SECURITY_MISCONFIGURATION",
   { id := "A05", name := "Security Misconfiguration",
     description := "Covers weak default settings, exposed services, and inconsistent security controls across environments.",
     priority := "High",
     checks := ["insecure_defaults", "exposed_services",
       "missing_security_headers", "debug_mode_enabled",
       "default_credentials", "unnecessary_features_enabled"] }),
  ("A06_VULNERABLE_COMPONENTS",
   { id := "A06", name := "Vulnerable and Outdated Components",
     description := "Unpatched or outdated software components with known vulnerabilities.",
     priority := "High",
     checks := ["outdated_dependencies", "known_cve_versions",
       "vulnerable_libraries", "missing_patches"] }),
  ("A07_AUTHENTICATION_FAILURES",
   { id := "A07", name := "Authentication Failures",
     description := "Issues in login flows, weak password policies, or session handling that lead to unauthorized access.",
     priority := "High",
     checks := ["weak_authentication", "weak_password_policy",
       "session_fixation", "missing_mfa", "broken_authentication",
       "credential_exposure"] }),
  ("A08_DATA_INTEGRITY_FAILURES",
   { id := "A08", name := "Software or Data Integrity Failures",
     description := "Flaws where code or data can be modified or tampered with, often in update mechanisms or pipelines.",
     priority := "High",
     checks := ["insecure_deserialization", "unsigned_updates",
       "missing_signatures", "unsafe_deployment", "code_tampering"] }),
  ("A09_LOGGING_MONITORING_FAILURES",
   { id := "A09", name := "Logging and Monitoring Failures",
     description := "Insufficient logging and monitoring to detect security incidents.",
     priority := "Medium",
     checks := ["missing_logging", "insufficient_monitoring",
       "inadequate_alerting", "log_tampering", "no_audit_trail"] }),
  ("A10_EXCEPTIONAL_CONDITIONS",
   { id := "A10", name := "Mishandling of Exceptional Conditions",
     description := "New for 2025, focused on unsafe error handling and system resilience when failures occur.",
     priority := "Medium",
     checks := ["unsafe_error_handling", "sensitive_info_in_errors",
       "unhandled_exceptions", "poor_error_recovery",
       "resource_exhaustion"] })
]

/-- Table `CIS_CATEGORIES` (`framework_categories.py`, lines 161–190). -/
def CIS_CATEGORIES : List (String × CategoryDef) := [
  ("CIS_APP_SOFTWARE_SECURITY",
   { id := "CIS-AS", name := "Application Software Security",
     description := "Ensures web apps follow secure coding practices, including input validation enforcement, secure API design and dependency vulnerability scanning.",
     priority := "High",
     checks := ["input_validation", "secure_api_design", "dependency_scanning",
       "secure_code_practices", "buffer_overflow_prevention",
       "format_string_prevention"] }),
  ("CIS_ACCESS_CONTROL_MANAGEMENT",
   { id := "CIS-AC", name := "Access Control Management",
     description := "Enforces role-based authorization, least privilege, session timeouts and protections against privilege escalation via endpoints.",
     priority := "High",
     checks := ["role_based_access", "least_privilege", "session_timeout",
       "privilege_escalation_protection", "endpoint_authorization",
       "resource_access_controls"] })
]

/-- Table `NIST_CATEGORIES` (`framework_categories.py`, lines 194–267). -/
def NIST_CATEGORIES : List (String × CategoryDef) := [
  ("NIST_IA",
   { id := "NIST-IA", name := "Identification and Authentication (IA)",
     description := "Validates authentication strength, password rules, MFA enforcement, session security.",
     priority := "High",
     checks := ["user_identification", "authentication_strength",
       "password_requirements", "mfa_enforcement", "session_security",
       "failed_login_attempts", "password_expiration", "account_lockout"] }),
  ("NIST_AC",
   { id := "NIST-AC", name := "Access Control (AC)",
     description := "Manages authorization, permissions, roles, and access enforcement.",
     priority := "High",
     checks := ["access_control_policy", "least_privilege_enforcement",
       "role_based_access", "separation_of_duties", "access_enforcement",
       "boundary_protection"] }),
  ("NIST_AU",
   { id := "NIST-AU", name := "Audit and Accountability (AU)",
     description := "Logging, monitoring, and audit trail management.",
     priority := "Medium",
     checks := ["audit_logging", "log_protection", "log_retention",
       "audit_review", "accountability", "tamper_detection"] }),
  ("NIST_SI",
   { id := "NIST-SI", name := "System and Information Integrity (SI)",
     description := "Malware protection, security updates, and system monitoring.",
     priority := "High",
     checks := ["malware_protection", "security_updates", "system_monitoring",
       "information_integrity", "flaw_remediation", "security_testing"] }),
  ("NIST_SC",
   { id := "NIST-SC", name := "System and Communications Protection (SC)",
     description := "Cryptography, encryption, and secure communications.",
     priority := "High",
     checks := ["encryption_in_transit", "encryption_at_rest",
       "key_management", "cryptographic_controls", "secure_protocols",
       "boundary_protection"] })
]

/-- Python `FrameworkType(framework_name.upper())` succeeds exactly on the three
enum values (`framework_categories.py`, lines 270–274). -/
def is_recognized_framework (framework_name : String) : Bool :=
  pyToUpper framework_name = "OWASP" ∨ pyToUpper framework_name = "CIS" ∨
    pyToUpper framework_name = "NIST"

/-- Function `get_categories_for_framework` (`framework_categories.py`,
lines 285–299): resolve the (case-insensitive) framework name through
`FrameworkType` and `FRAMEWORK_MAPPINGS`; unknown names yield `{}`. -/
def get_categories_for_framework (framework_name : String) :
    List (String × CategoryDef) :=
  if pyToUpper framework_name = "OWASP" then OWASP_CATEGORIES
  else if pyToUpper framework_name = "CIS" then CIS_CATEGORIES
  else if pyToUpper framework_name = "NIST" then NIST_CATEGORIES
  else []

/-- Function `map_scanner_finding_to_categories` (`framework_categories.py`,
lines 337–360): collect `category_def.id` for every category of the framework
whose `checks` list contains the finding type. The `severity` argument is
accepted and unused, as in the source. -/
def map_scanner_finding_to_categories (framework_name finding_type
    severity : String) : List String :=
  ((get_categories_for_framework framework_name).filter
      (fun p => finding_type ∈ p.2.checks)).map (fun p => p.2.id)

/-! ## Finding classification (`category_checker.py`) -/

/-- A raw scanner finding: a JSON-like dict whose keys may be absent.
`finding.get(k, d)` is embedded as `(field.getD d)`. Bandit findings carry
`type`; semgrep findings carry `rule_id`; both may carry `severity`,
`message`, `file`, `line`. -/
structure RawFinding where
  type : Option String := none
  rule_id : Option String := none
  message : Option String := none
  severity : Option String := none
  file : Option String := none
  line : Option Int := none
deriving Repr, DecidableEq

/-- The `test_mappings` dict inside `_map_bandit_to_categories`
(`category_checker.py`, lines 91–114): Bandit issue types to canonical
check types. -/
def bandit_test_mappings : List (String × String) := [
  ("hardcoded_password", "hardcoded_secrets"),
  ("hardcoded_sql_string", "sql_injection"),
  ("hardcoded_temp_file", "insecure_defaults"),
  ("assert_used", "security_misconfiguration"),
  ("exec_used", "code_injection"),
  ("eval_used", "code_injection"),
  ("subprocess", "os_command_injection"),
  ("start_process_with_a_shell", "os_command_injection"),
  ("start_process_with_partial_path", "os_command_injection"),
  ("suspicious_non_cryptographic_random_usage", "weak_encryption"),
  ("use_of_input_instead_of_raw_input", "input_validation"),
  ("import_telnetlib", "insecure_protocols"),
  ("try_except_pass", "unsafe_error_handling"),
  ("except_pass", "unsafe_error_handling"),
  ("bad_file_permissions", "insecure_defaults"),
  ("flask_debug_true", "debug_mode_enabled"),
  ("insecure_hash_function", "weak_encryption"),
  ("insecure_random_function", "weak_encryption"),
  ("paramiko_calls", "weak_encryption"),
  ("request_with_no_cert_validation", "insecure_protocols"),
  ("use_of_mako_templates", "template_injection"),
  ("jinja2_autoescape_false", "template_injection")
]

/-- Python `d.get(k, default)` over an association list. -/
def assocGetD (m : List (String × String)) (k d : String) : String :=
  (((m.find? (fun p => p.1 = k)).map Prod.snd).getD d)

/-- Method `_map_bandit_to_categories` (`category_checker.py`, lines 81–123):
lower-case the issue type, translate it through `test_mappings` with the
issue type itself as the default, and look the resulting check type up in
the framework categories. No keyword fallback exists on this path. -/
def map_bandit_to_categories (framework_name : String)
    (finding : RawFinding) : List String :=
  let issue_type := pyToLower (finding.type.getD "")
  let severity := pyToLower (finding.severity.getD "")
  let check_type := assocGetD bandit_test_mappings issue_type issue_type
  map_scanner_finding_to_categories framework_name check_type severity

/-- Python's substring test `pat in s` (for non-empty `pat`). -/
def strContains (s pat : String) : Bool := containsSub s.data pat.data

/-- Python `any(x in s for x in xs)`. -/
def containsAnyOf (s : String) (xs : List String) : Bool :=
  xs.any (fun x => strContains s x)

/-- The `if`/`elif` keyword chain of `_map_semgrep_to_categories`
(`category_checker.py`, lines 136–157): substring tests against the
lower-cased rule id only; the first matching group wins; with no match the
check type is the rule id verbatim. -/
def semgrep_check_type (rule_id : String) : String :=
  if containsAnyOf rule_id ["sql", "injection"] then "sql_injection"
  else if containsAnyOf rule_id ["auth", "password", "credential"] then
    "weak_authentication"
  else if containsAnyOf rule_id ["crypto", "encrypt", "hash"] then
    "weak_encryption"
  else if containsAnyOf rule_id ["access", "control", "permission"] then
    "access_control_bypass"
  else if containsAnyOf rule_id ["xxe", "xml", "parse"] then "injection"
  else if containsAnyOf rule_id ["xss", "script", "html"] then "injection"
  else if containsAnyOf rule_id ["command", "exec", "os"] then
    "os_command_injection"
  else if containsAnyOf rule_id ["error", "exception", "logging"] then
    "unsafe_error_handling"
  else if containsAnyOf rule_id ["default", "config", "setting"] then
    "insecure_defaults"
  else rule_id

/-- Method `_map_semgrep_to_categories` (`category_checker.py`, lines 125–165):
the message is read into a local (lower-cased) but never consulted by the
keyword chain, exactly as in the source. -/
def map_semgrep_to_categories (framework_name : String)
    (finding : RawFinding) : List String :=
  let rule_id := pyToLower (finding.rule_id.getD "")
  let message := pyToLower (finding.message.getD "")
  let severity := pyToLower (finding.severity.getD "")
  let check_type := semgrep_check_type rule_id
  map_scanner_finding_to_categories framework_name check_type severity

/-- One entry of the categorized-findings map, as appended by
`categorize_findings` (`category_checker.py`, lines 57–63 and 71–77). -/
structure CategorizedFinding where
  tool : String
  finding : RawFinding
  severity : String
  file : Option String
  line : Option Int
deriving Repr, DecidableEq

/-- Python `categorized[category_id].append(entry)`, creating the key at the end
of the (insertion-ordered) dict when absent. -/
def appendEntry (m : List (String × List CategorizedFinding)) (k : String)
    (v : CategorizedFinding) : List (String × List CategorizedFinding) :=
  if m.any (fun p => p.1 = k) then
    m.map (fun p => if p.1 = k then (p.1, p.2 ++ [v]) else p)
  else m ++ [(k, [v])]

/-- The raw findings-by-tool dict consumed by `categorize_findings`:
`{"bandit": [...], "semgrep": [...]}` (absent keys behave as `[]`, per
`findings.get(tool, [])`). -/
structure FindingsByTool where
  bandit : List RawFinding := []
  semgrep : List RawFinding := []
deriving Repr, DecidableEq

/-- The entry appended for one finding of one tool: severity is
`finding.get("severity", "unknown").upper()`. -/
def mkCategorizedEntry (tool : String) (finding : RawFinding) :
    CategorizedFinding :=
  { tool := tool, finding := finding,
    severity := pyToUpper (finding.severity.getD "unknown"),
    file := finding.file, line := finding.line }

/-- Method `categorize_findings` (`category_checker.py`, lines 26–79): fan every
bandit finding, then every semgrep finding, out to each category id its
mapper returns. -/
def categorize_findings (framework_name : String)
    (findings : FindingsByTool) :
    List (String × List CategorizedFinding) :=
  let afterBandit := findings.bandit.foldl
    (fun acc finding =>
      (map_bandit_to_categories framework_name finding).foldl
        (fun a category_id =>
          appendEntry a category_id (mkCategorizedEntry "bandit" finding))
        acc)
    []
  findings.semgrep.foldl
    (fun acc finding =>
      (map_semgrep_to_categories framework_name finding).foldl
        (fun a category_id =>
          appendEntry a category_id (mkCategorizedEntry "semgrep" finding))
        acc)
    afterBandit

/-! ## Category and overall scoring (`category_checker.py`) -/

/-- One value of the dict returned by `calculate_category_scores`
(`category_checker.py`, lines 219–228). -/
structure CategoryScoreData where
  category : String
  score : ℚ
  total_issues : Nat
  critical : Nat
  high : Nat
  medium : Nat
  low : Nat
  priority : String
deriving Repr, DecidableEq

/-- Python `categorized_findings.get(category_def.id, [])`. -/
def findingsFor (categorized_findings :
    List (String × List CategorizedFinding)) (category_id : String) :
    List CategorizedFinding :=
  (((categorized_findings.find? (fun p => p.1 = category_id)).map
      Prod.snd).getD [])

/-- The per-category body of `calculate_category_scores`
(`category_checker.py`, lines 196–228): count the four severities, deduct
25/15/8/3 per finding from 100, clamp to `[0, 100]`, round to two
decimals. -/
def score_category_data (category_def : CategoryDef)
    (findings : List CategorizedFinding) : CategoryScoreData :=
  let critical := (findings.filter (fun f => f.severity = "CRITICAL")).length
  let high := (findings.filter (fun f => f.severity = "HIGH")).length
  let medium := (findings.filter (fun f => f.severity = "MEDIUM")).length
  let low := (findings.filter (fun f => f.severity = "LOW")).length
  let total_issues := critical + high + medium + low
  let score : ℚ :=
    100 - (critical : ℚ) * 25 - (high : ℚ) * 15 - (medium : ℚ) * 8 -
      (low : ℚ) * 3
  let clamped := max (0 : ℚ) (min 100 score)
  { category := category_def.name, score := round2 clamped,
    total_issues := total_issues, critical := critical, high := high,
    medium := medium, low := low, priority := category_def.priority }

/-- Method `calculate_category_scores` (`category_checker.py`, lines 167–230):
one entry per category of the framework, keyed by `category_def.id`. -/
def calculate_category_scores (framework_name : String)
    (categorized_findings : List (String × List CategorizedFinding)) :
    List (String × CategoryScoreData) :=
  (get_categories_for_framework framework_name).map
    (fun p => (p.2.id,
      score_category_data p.2 (findingsFor categorized_findings p.2.id)))

/-- An entry of the dict consumed by `calculate_overall_score`: a JSON-like
score record whose `priority` and `score` keys may be absent
(`score_data.get("priority", "Medium")`, `score_data.get("score", 0)`). -/
structure ScoreEntry where
  priority : Option String := none
  score : Option ℚ := none
deriving Repr, DecidableEq

/-- Dict `priority_weights` (`category_checker.py`, lines 246–250). -/
def priority_weights : List (String × ℚ) :=
  [("High", 50/100), ("Medium", 35/100), ("Low", 15/100)]

/-- Python `priority_weights.get(score_data.get("priority", "Medium"), 0.35)`. -/
def entry_weight (e : ScoreEntry) : ℚ :=
  (((priority_weights.find?
      (fun p => p.1 = e.priority.getD "Medium")).map Prod.snd).getD (35/100))

/-- Python `score_data.get("score", 0)`. -/
def entry_score (e : ScoreEntry) : ℚ := e.score.getD 0

/-- Method `calculate_overall_score` (`category_checker.py`, lines 232–267):
priority-weighted mean over the entries present, defaulting missing
priorities to Medium and missing scores to 0, returning 100.0 when the
total weight is zero and otherwise the mean rounded to two decimals. -/
def calculate_overall_score (category_scores : List (String × ScoreEntry)) :
    ℚ :=
  let weighted_sum := category_scores.foldl
    (fun acc p => acc + entry_score p.2 * entry_weight p.2) 0
  let total_weight := category_scores.foldl
    (fun acc p => acc + entry_weight p.2) 0
  if total_weight = 0 then 100 else round2 (weighted_sum / total_weight)

/-- View of a full `calculate_category_scores` value as the dict entries
`calculate_overall_score` reads (both keys always present there). -/
def toScoreEntry (d : CategoryScoreData) : ScoreEntry :=
  { priority := some d.priority, score := some d.score }

/-- The category-scores dict as consumed by `calculate_overall_score`. -/
def scoresAsEntries (m : List (String × CategoryScoreData)) :
    List (String × ScoreEntry) :=
  m.map (fun p => (p.1, toScoreEntry p.2))

/-- Modelled from the spec (§4.3 `score_overall`), for comparison with the
implementation: the exact priority-weighted mean of the scores present,
normalized by the total weight of the categories present, 100 on an empty
map — with no rounding, as the spec sentence states it. -/
def spec_overall_weighted_mean
    (category_scores : List (String × ScoreEntry)) : ℚ :=
  let weighted_sum := category_scores.foldl
    (fun acc p => acc + entry_score p.2 * entry_weight p.2) 0
  let total_weight := category_scores.foldl
    (fun acc p => acc + entry_weight p.2) 0
  if total_weight = 0 then 100 else weighted_sum / total_weight

/-! ## Scan record, orchestrator and worker merge
(`models.py`, `orchestrator.py`, `sast_worker.py`, `dast_worker.py`) -/

/-- The per-analysis-type result written into the scan record is an opaque
JSON blob to the orchestration layer (spec §3 `findingsByTool`); its
internal structure (`combined_results` in the workers) plays no part in
the merge logic, so it is embedded as an opaque value. -/
abbrev ResultBlob := String

/-- The `scan_results` row (`models.py` `ScanResult`, lines 99–115, and
migration `001_initial.py` lines 98–114): the model has no category-score,
scanned-categories or findings-by-category columns. -/
structure ScanRecord where
  scan_id : String
  framework_id : Int
  repository_url : String := ""
  branch : String := ""
  status : String
  findings : List (String × ResultBlob)
  compliance_score : ℚ
  raw_output : List (String × ResultBlob)
deriving Repr, DecidableEq

/-- Python `d[k] = v` on a JSON-object column: overwrite the key in place,
appending it when absent. -/
def setKey (m : List (String × ResultBlob)) (k : String) (v : ResultBlob) :
    List (String × ResultBlob) :=
  if m.any (fun p => p.1 = k) then
    m.map (fun p => if p.1 = k then (p.1, v) else p)
  else m ++ [(k, v)]

/-- The database update of `run_sast_scan` (`sast_worker.py`, lines
117–134): read the row, set `findings["sast"]` and `raw_output["sast"]`,
commit. Nothing else on the record is touched — no completion check, no
score computation, no status transition. -/
def merge_sast_result (scan_result : ScanRecord)
    (combined_results sast_raw : ResultBlob) : ScanRecord :=
  { scan_result with
      findings := setKey scan_result.findings "sast" combined_results,
      raw_output := setKey scan_result.raw_output "sast" sast_raw }

/-- The database update of `run_dast_scan` (`dast_worker.py`, lines
46–57): identical shape under the `"dast"` key. -/
def merge_dast_result (scan_result : ScanRecord)
    (processed_results dast_raw : ResultBlob) : ScanRecord :=
  { scan_result with
      findings := setKey scan_result.findings "dast" processed_results,
      raw_output := setKey scan_result.raw_output "dast" dast_raw }

/-- A task placed on the Celery queue by `initiate_scan`
(`orchestrator.py`, lines 62–90). -/
structure QueuedTask where
  task_name : String
  scan_id : String
  priority : Int
deriving Repr, DecidableEq

/-- The stored state `initiate_scan` operates on: the `frameworks` table
(only its ids matter here), the `scan_results` table, and the task
queue. -/
structure DbState where
  framework_ids : List Int
  scan_results : List ScanRecord
  queue : List QueuedTask
deriving Repr, DecidableEq

/-- Python `db.add(scan_result); db.commit()` (`orchestrator.py`, lines 58–59)
under the schema of `001_initial.py`: the insert succeeds only when
`framework_id` satisfies the `scan_results.framework_id → frameworks.id`
foreign-key constraint and `scan_id` the unique constraint; otherwise the
commit raises and the transaction is rolled back (`none`). -/
def commitInsertScanRecord (db : DbState) (r : ScanRecord) :
    Option DbState :=
  if r.framework_id ∈ db.framework_ids ∧
      (∀ s ∈ db.scan_results, s.scan_id ≠ r.scan_id) then
    some { db with scan_results := db.scan_results ++ [r] }
  else none

/-- The three conditional `celery_app.send_task` calls of `initiate_scan`
(`orchestrator.py`, lines 65–90), in source order. -/
def enqueueTasks (scan_id : String) (scan_types : List String)
    (priority : Int) : List QueuedTask :=
  (if scan_types.contains "sast" then
    [{ task_name := "src.workers.sast_worker.run_sast_scan",
       scan_id := scan_id, priority := priority }] else []) ++
  (if scan_types.contains "dast" then
    [{ task_name := "src.workers.dast_worker.run_dast_scan",
       scan_id := scan_id, priority := priority }] else []) ++
  (if scan_types.contains "sca" then
    [{ task_name := "src.workers.sca_worker.run_sca_scan",
       scan_id := scan_id, priority := priority }] else [])

/-- Method `ScanOrchestrator.initiate_scan` (`orchestrator.py`, lines 22–103):
build the pending record, commit it (a foreign-key or uniqueness
violation raises here, before any enqueue, leaving the state unchanged —
returned as `(db, none)`), enqueue one task per requested type, set the
record's status to `"in_progress"` and commit. The generated
`uuid.uuid4()` is passed in as `scan_id`. Enqueueing itself is modelled as
always succeeding (the `except` branch that marks the record `failed` on a
dispatch error is unreachable in this model). -/
def initiate_scan (db : DbState) (scan_id repository_url branch : String)
    (framework_id : Int) (scan_types : List String) (priority : Int) :
    DbState × Option String :=
  let scan_result : ScanRecord :=
    { scan_id := scan_id, framework_id := framework_id,
      repository_url := repository_url, branch := branch,
      status := "pending", findings := [], compliance_score := 0,
      raw_output := [] }
  match commitInsertScanRecord db scan_result with
  | none => (db, none)
  | some db1 =>
    let db2 := { db1 with
      queue := db1.queue ++ enqueueTasks scan_id scan_types priority }
    let db3 := { db2 with
      scan_results := db2.scan_results.map (fun s =>
        if s.scan_id = scan_id then { s with status := "in_progress" }
        else s) }
    (db3, some scan_id)

/-! ## Concurrent merge model (spec §5/§8 scenario against the worker code)

Each worker's database update is a read-modify-write on the one shared
scan row: it reads the whole `findings` map into a local
(`current_findings = scan_result.findings or {}`), sets its own
analysis-type key, and commits the whole map back
(`scan_result.findings = current_findings`). There is no row lock,
version check or retry in the worker code, so the two steps of the two
workers may interleave arbitrarily. -/

/-- The two observable database steps of one worker's merge. -/
inductive MergeStep
  | read
  | write
deriving Repr, DecidableEq

/-- Shared scan-row `findings` column plus each worker's local copy
(`none` until its read has happened). `true` identifies the SAST worker,
`false` the DAST worker. -/
structure MergeRaceState where
  shared : List (String × ResultBlob)
  sast_snapshot : Option (List (String × ResultBlob)) := none
  dast_snapshot : Option (List (String × ResultBlob)) := none
deriving Repr, DecidableEq

/-- One interleaved step: a read copies the shared map into the worker's
local; a write commits the worker's local map, with its own key set, over
the shared map — the whole-map write-back of the worker code. -/
def mergeWorkerStep (s : MergeRaceState) (isSast : Bool)
    (blob : ResultBlob) (step : MergeStep) : MergeRaceState :=
  match step with
  | .read =>
    if isSast then { s with sast_snapshot := some s.shared }
    else { s with dast_snapshot := some s.shared }
  | .write =>
    if isSast then
      match s.sast_snapshot with
      | some snap => { s with shared := setKey snap "sast" blob }
      | none => s
    else
      match s.dast_snapshot with
      | some snap => { s with shared := setKey snap "dast" blob }
      | none => s

/-- Run an interleaving (schedule) of the SAST and DAST merges from an
initial `findings` map. -/
def runMergeSchedule (init : List (String × ResultBlob))
    (sast_blob dast_blob : ResultBlob) (sched : List (Bool × MergeStep)) :
    MergeRaceState :=
  sched.foldl
    (fun s p =>
      mergeWorkerStep s p.1 (if p.1 then sast_blob else dast_blob) p.2)
    { shared := init }

/-- The racy interleaving of spec §8: both workers read before either
writes. -/
def lostUpdateSchedule : List (Bool × MergeStep) :=
  [(true, .read), (false, .read), (true, .write), (false, .write)]

/-- The fully serialized interleaving: SAST merges, then DAST merges. -/
def serializedSchedule : List (Bool × MergeStep) :=
  [(true, .read), (true, .write), (false, .read), (false, .write)]

/-! ## Sample inputs used in concrete theorems -/

/-- Number of findings in a list carrying exactly the given (normalized)
severity string — the count the scoring loop takes per severity. -/
def severityCount (findings : List CategorizedFinding) (sev : String) : Nat :=
  (findings.filter (fun f => f.severity = sev)).length

/-- The OWASP A01 category definition, looked up from the table. -/
def owasp_A01 : CategoryDef :=
  (((OWASP_CATEGORIES.find? (fun p => p.2.id = "A01")).map Prod.snd).getD
    { id := "", name := "", description := "", priority := "", checks := [] })

/-- A categorized finding whose severity normalized to `"UNKNOWN"`. -/
def unknown_severity_entry : CategorizedFinding :=
  { tool := "bandit", finding := {}, severity := "UNKNOWN", file := none,
    line := none }

/-- Three present categories, all High priority, scores 100 / 100 / 50:
their exact weighted mean is 250/3 = 83.333…, which does not survive the
two-decimal rounding. -/
def c3_map : List (String × ScoreEntry) :=
  [("a", { priority := some "High", score := some 100 }),
   ("b", { priority := some "High", score := some 100 }),
   ("c", { priority := some "High", score := some 50 })]

/-- A categorized-findings map with a single UNKNOWN-severity finding
under OWASP category A01. -/
def c4_map : List (String × List CategorizedFinding) :=
  [("A01", [unknown_severity_entry])]

/-- Stored state with one framework (id 1), no scans, an empty queue. -/
def c5_db : DbState := { framework_ids := [1], scan_results := [], queue := [] }

/-- A semgrep finding whose rule id matches no keyword but whose message
contains both "sql" and "injection". -/
def c6_semgrep_finding : RawFinding :=
  { rule_id := some "cve-2024-001", message := some "possible sql injection",
    severity := some "high" }

/-- A bandit finding whose type is absent from `test_mappings` and contains
both "sql" and "injection". -/
def c6_bandit_finding : RawFinding :=
  { type := some "raw sql injection risk", severity := some "high" }

/-- The spec §8 scenario input: one bandit hardcoded-SQL finding (test id
B608; the mapping key in `test_mappings` is `hardcoded_sql_string`) at
severity critical. -/
def c7_findings : FindingsByTool :=
  { bandit := [{ type := some "hardcoded_sql_string",
                 severity := some "critical",
                 file := some "src/api/endpoints.py", line := some 105 }] }

/-- The categorized entry produced for the scenario finding. -/
def c7_entry : CategorizedFinding :=
  { tool := "bandit",
    finding := { type := some "hardcoded_sql_string",
                 severity := some "critical",
                 file := some "src/api/endpoints.py", line := some 105 },
    severity := "CRITICAL",
    file := some "src/api/endpoints.py", line := some 105 }

/-! ## Helper lemmas -/

section Proofs

attribute [local semireducible] Rat.mul Rat.inv Rat.add Rat.sub

theorem roundHalfEven_intCast (n : ℤ) : roundHalfEven (n : ℚ) = n := by
  unfold roundHalfEven
  norm_num

theorem round2_intCast (n : ℤ) : round2 (n : ℚ) = n := by
  unfold round2
  have h : ((n : ℚ) * 100) = ((n * 100 : ℤ) : ℚ) := by push_cast; ring
  rw [h, roundHalfEven_intCast]
  push_cast
  ring

theorem get_categories_OWASP :
    get_categories_for_framework "OWASP" = OWASP_CATEGORIES := by
  unfold get_categories_for_framework
  rw [if_pos (by decide)]

theorem score_category_data_score_eq (cd : CategoryDef)
    (findings : List CategorizedFinding) :
    (score_category_data cd findings).score =
      max 0 (min 100 (100 - 25 * (severityCount findings "CRITICAL" : ℚ)
        - 15 * (severityCount findings "HIGH" : ℚ)
        - 8 * (severityCount findings "MEDIUM" : ℚ)
        - 3 * (severityCount findings "LOW" : ℚ))) := by
  unfold score_category_data severityCount
  generalize (findings.filter (fun f => f.severity = "CRITICAL")).length = c
  generalize (findings.filter (fun f => f.severity = "HIGH")).length = h
  generalize (findings.filter (fun f => f.severity = "MEDIUM")).length = m
  generalize (findings.filter (fun f => f.severity = "LOW")).length = l
  have e1 : (100 - (c:ℚ)*25 - h*15 - m*8 - l*3) =
      ((100 - 25*c - 15*h - 8*m - 3*l : ℤ) : ℚ) := by push_cast; ring
  have e2 : (100 - 25*(c:ℚ) - 15*h - 8*m - 3*l) =
      ((100 - 25*c - 15*h - 8*m - 3*l : ℤ) : ℚ) := by push_cast; ring
  show round2 (max 0 (min 100 (100 - (c:ℚ)*25 - h*15 - m*8 - l*3))) = _
  rw [e1, e2, show ((0:ℚ)) = ((0:ℤ):ℚ) by norm_num,
    show ((100:ℚ)) = ((100:ℤ):ℚ) by norm_num, ← Int.cast_min, ← Int.cast_max,
    round2_intCast]

theorem score_category_data_total_eq (cd : CategoryDef)
    (findings : List CategorizedFinding) :
    (score_category_data cd findings).total_issues =
      (findings.filter (fun f => f.severity = "CRITICAL" ∨ f.severity = "HIGH"
        ∨ f.severity = "MEDIUM" ∨ f.severity = "LOW")).length := by
  unfold score_category_data
  induction findings with
  | nil => rfl
  | cons f t ih =>
    simp only [List.filter_cons]
    by_cases h1 : f.severity = "CRITICAL" <;> by_cases h2 : f.severity = "HIGH" <;>
      by_cases h3 : f.severity = "MEDIUM" <;> by_cases h4 : f.severity = "LOW" <;>
      simp_all <;> omega

theorem score_category_data_unknown_append (cd : CategoryDef)
    (findings : List CategorizedFinding) (e : CategorizedFinding)
    (h : e.severity = "UNKNOWN") :
    score_category_data cd (findings ++ [e]) =
      score_category_data cd findings := by
  unfold score_category_data
  simp [List.filter_append, h]

/-! ## Claim theorems -/

/-- Claim C1 (code bug): the spec requires that after the merge of the
last outstanding analysis type the system run Classifier → Scorer →
Recommendation Generator, write `categoryScores` / `overallScore` /
`scannedCategories` and transition the record to `complete`. The worker
code does none of this: its database update after a completed scan writes
only the `findings` and `raw_output` keys of its own analysis type and
leaves everything else untouched — the status stays `"in_progress"` even
for a single-type scan whose only merge has happened, the compliance score
is never recomputed, and the `ScanResult` model has no category-score or
scanned-categories columns at all. -/
theorem worker_merge_performs_no_completion :
    (∀ (r : ScanRecord) (c w : ResultBlob),
        (merge_sast_result r c w).status = r.status ∧
        (merge_sast_result r c w).compliance_score = r.compliance_score ∧
        (merge_dast_result r c w).status = r.status ∧
        (merge_dast_result r c w).compliance_score = r.compliance_score) ∧
    merge_sast_result
        { scan_id := "scan-1", framework_id := 1, status := "in_progress",
          findings := [], compliance_score := 0, raw_output := [] }
        "sastCombinedResults" "sastRawOutput" =
      { scan_id := "scan-1", framework_id := 1, status := "in_progress",
        findings := [("sast", "sastCombinedResults")], compliance_score := 0,
        raw_output := [("sast", "sastRawOutput")] } := by
  exact ⟨fun r c w => ⟨rfl, rfl, rfl, rfl⟩, by decide⟩

/-- Claim C2: for every category of a framework and every
categorized-findings map, the per-category score computed by
`calculate_category_scores` equals
clamp(100 − 25·critical − 15·high − 8·medium − 3·low, 0, 100), the counts
being the numbers of findings with that normalized severity; a category
with zero findings scores exactly 100 with `total_issues = 0`. -/
theorem score_category_deduction_formula (framework_name : String)
    (categorized_findings : List (String × List CategorizedFinding))
    (k : String) (cd : CategoryDef)
    (h : (k, cd) ∈ get_categories_for_framework framework_name) :
    (cd.id, score_category_data cd (findingsFor categorized_findings cd.id)) ∈
        calculate_category_scores framework_name categorized_findings ∧
    (score_category_data cd (findingsFor categorized_findings cd.id)).score =
      max 0 (min 100 (100
        - 25 * (severityCount (findingsFor categorized_findings cd.id) "CRITICAL" : ℚ)
        - 15 * (severityCount (findingsFor categorized_findings cd.id) "HIGH" : ℚ)
        - 8 * (severityCount (findingsFor categorized_findings cd.id) "MEDIUM" : ℚ)
        - 3 * (severityCount (findingsFor categorized_findings cd.id) "LOW" : ℚ))) ∧
    (findingsFor categorized_findings cd.id = [] →
      (score_category_data cd (findingsFor categorized_findings cd.id)).score = 100 ∧
      (score_category_data cd (findingsFor categorized_findings cd.id)).total_issues = 0) := by
  refine ⟨?_, score_category_data_score_eq cd _, ?_⟩
  · unfold calculate_category_scores
    exact List.mem_map_of_mem _ h
  · intro he
    rw [he]
    constructor
    · rw [score_category_data_score_eq]
      norm_num [severityCount]
    · rfl

theorem score_category_deduction_formula_witness :
    ("A01_BROKEN_ACCESS_CONTROL", owasp_A01) ∈
        get_categories_for_framework "OWASP" ∧
    (score_category_data owasp_A01
        (findingsFor ([] : List (String × List CategorizedFinding)) "A01")).score = 100 ∧
    (score_category_data owasp_A01
        (findingsFor ([] : List (String × List CategorizedFinding)) "A01")).total_issues = 0 :=
  ⟨by decide,
   (score_category_deduction_formula "OWASP" [] "A01_BROKEN_ACCESS_CONTROL"
      owasp_A01 (by decide)).2.2 rfl⟩

/-- Claim C3 counterexample: on three present High-priority categories
with scores 100, 100 and 50, `calculate_overall_score` returns 83.33,
while the exact normalized weighted mean is 250/3 = 83.333… — the
function returns the mean rounded to two decimal places, not the mean. -/
theorem overall_score_differs_from_exact_weighted_mean :
    calculate_overall_score c3_map = 8333/100 ∧
    spec_overall_weighted_mean c3_map = 250/3 ∧
    calculate_overall_score c3_map ≠ spec_overall_weighted_mean c3_map := by
  decide

/-- Claim C3 (amended): `calculate_overall_score` returns the
priority-weighted mean of the scores present (weights High 0.50 /
Medium 0.35 / Low 0.15, normalized by the total weight of the categories
actually present) rounded to two decimal places, and returns exactly 100
when the map is empty. -/
theorem overall_score_is_rounded_weighted_mean :
    (∀ category_scores : List (String × ScoreEntry),
      calculate_overall_score category_scores =
        round2 (spec_overall_weighted_mean category_scores)) ∧
    calculate_overall_score [] = 100 := by
  constructor
  · intro m
    show (if List.foldl (fun acc p => acc + entry_weight p.2) 0 m = 0 then (100:ℚ)
          else round2 (List.foldl (fun acc p => acc + entry_score p.2 * entry_weight p.2) 0 m /
            List.foldl (fun acc p => acc + entry_weight p.2) 0 m)) =
        round2 (if List.foldl (fun acc p => acc + entry_weight p.2) 0 m = 0 then (100:ℚ)
          else List.foldl (fun acc p => acc + entry_score p.2 * entry_weight p.2) 0 m /
            List.foldl (fun acc p => acc + entry_weight p.2) 0 m)
    split_ifs with h
    · norm_num [round2, roundHalfEven]
    · rfl
  · decide

/-- Claim C4 counterexample: a category holding exactly one finding, of
severity UNKNOWN, reports `total_issues = 0` — the claim says the UNKNOWN
finding is counted and `total_issues` would be 1. -/
theorem unknown_severity_excluded_from_total_issues :
    (findingsFor c4_map "A01").length = 1 ∧
    ((calculate_category_scores "OWASP" c4_map).find?
      (fun p => p.1 = "A01")).map (fun p => p.2.total_issues) = some 0 := by
  decide

/-- Claim C4 (amended): an UNKNOWN-severity finding contributes 0 to the
score deduction and is also excluded from `total_issues`: `total_issues`
counts exactly the findings whose severity is CRITICAL, HIGH, MEDIUM or
LOW, and appending an UNKNOWN-severity finding leaves the entire category
score record unchanged. -/
theorem total_issues_counts_only_scored_severities :
    (∀ (cd : CategoryDef) (findings : List CategorizedFinding),
      (score_category_data cd findings).total_issues =
        (findings.filter (fun f => f.severity = "CRITICAL" ∨ f.severity = "HIGH"
          ∨ f.severity = "MEDIUM" ∨ f.severity = "LOW")).length) ∧
    (∀ (cd : CategoryDef) (findings : List CategorizedFinding)
        (e : CategorizedFinding), e.severity = "UNKNOWN" →
      score_category_data cd (findings ++ [e]) = score_category_data cd findings) :=
  ⟨score_category_data_total_eq, score_category_data_unknown_append⟩

theorem total_issues_counts_only_scored_severities_witness :
    score_category_data owasp_A01 ([] ++ [unknown_severity_entry]) =
      score_category_data owasp_A01 [] :=
  total_issues_counts_only_scored_severities.2 owasp_A01 [] unknown_severity_entry rfl

/-- Claim C5: a call to `initiate_scan` with a framework id absent from
the frameworks table fails at the first commit (the
`scan_results.framework_id → frameworks.id` foreign-key constraint of the
schema raises before any task is enqueued) and leaves the stored state
unchanged with no scan record created; for a valid framework id (and a
fresh scan id) the call returns the scan id and a scan record with that
framework id is present afterwards. -/
theorem initiate_scan_rejects_unknown_framework (db : DbState)
    (scan_id url branch : String) (fid : Int) (types : List String)
    (prio : Int) :
    (fid ∉ db.framework_ids →
      initiate_scan db scan_id url branch fid types prio = (db, none)) ∧
    (fid ∈ db.framework_ids → (∀ s ∈ db.scan_results, s.scan_id ≠ scan_id) →
      (initiate_scan db scan_id url branch fid types prio).2 = some scan_id ∧
      ({ scan_id := scan_id, framework_id := fid, repository_url := url,
         branch := branch, status := "in_progress", findings := [],
         compliance_score := 0, raw_output := [] } : ScanRecord) ∈
        (initiate_scan db scan_id url branch fid types prio).1.scan_results) := by
  constructor
  · intro h
    simp only [initiate_scan, commitInsertScanRecord]
    rw [if_neg (by tauto)]
  · intro h hfresh
    simp only [initiate_scan, commitInsertScanRecord]
    rw [if_pos ⟨h, hfresh⟩]
    refine ⟨rfl, ?_⟩
    refine List.mem_map.mpr ⟨({ scan_id := scan_id, framework_id := fid, repository_url := url, branch := branch, status := "pending", findings := [], compliance_score := 0, raw_output := [] } : ScanRecord), (by simp), ?_⟩
    simp

theorem initiate_scan_rejects_unknown_framework_witness :
    initiate_scan c5_db "scan-w" "https://example.com/repo.git" "main" 2
        ["sast"] 5 = (c5_db, none) ∧
    (initiate_scan c5_db "scan-w" "https://example.com/repo.git" "main" 1
        ["sast"] 5).2 = some "scan-w" :=
  ⟨(initiate_scan_rejects_unknown_framework c5_db "scan-w"
      "https://example.com/repo.git" "main" 2 ["sast"] 5).1 (by decide),
   ((initiate_scan_rejects_unknown_framework c5_db "scan-w"
      "https://example.com/repo.git" "main" 1 ["sast"] 5).2 (by decide)
      (by decide)).1⟩

/-- Claim C6 counterexample: a semgrep finding whose rule id matches no
keyword but whose message contains "sql" and "injection" maps to no
category (the claimed message fallback would map it to A03), and a bandit
finding with an unmapped type containing "sql" and "injection" maps to no
category (the claimed every-tool keyword fallback would map it to A03) —
while the check type `sql_injection` itself does map to exactly A03. -/
theorem keyword_fallback_counterexamples :
    map_semgrep_to_categories "OWASP" c6_semgrep_finding = [] ∧
    map_bandit_to_categories "OWASP" c6_bandit_finding = [] ∧
    map_scanner_finding_to_categories "OWASP" "sql_injection" "high" =
      ["A03"] := by
  decide

/-- Claim C6 (amended): the keyword fallback exists only on the semgrep
path and consults only the lower-cased rule id — the message is read but
never used, so classification of a semgrep finding depends only on its
rule id; when no keyword group matches, the check type is the rule id
verbatim. Bandit findings get no keyword fallback at all: a type absent
from `test_mappings` is used verbatim as the check type. -/
theorem fallback_semgrep_rule_id_only_bandit_identity :
    (∀ (framework_name : String) (f g : RawFinding), f.rule_id = g.rule_id →
      map_semgrep_to_categories framework_name f =
        map_semgrep_to_categories framework_name g) ∧
    (∀ (framework_name : String) (f : RawFinding),
      bandit_test_mappings.find?
        (fun p => p.1 = pyToLower (f.type.getD "")) = none →
      map_bandit_to_categories framework_name f =
        map_scanner_finding_to_categories framework_name
          (pyToLower (f.type.getD "")) (pyToLower (f.severity.getD ""))) ∧
    (∀ rule_id : String,
      containsAnyOf rule_id ["sql", "injection"] = false →
      containsAnyOf rule_id ["auth", "password", "credential"] = false →
      containsAnyOf rule_id ["crypto", "encrypt", "hash"] = false →
      containsAnyOf rule_id ["access", "control", "permission"] = false →
      containsAnyOf rule_id ["xxe", "xml", "parse"] = false →
      containsAnyOf rule_id ["xss", "script", "html"] = false →
      containsAnyOf rule_id ["command", "exec", "os"] = false →
      containsAnyOf rule_id ["error", "exception", "logging"] = false →
      containsAnyOf rule_id ["default", "config", "setting"] = false →
      semgrep_check_type rule_id = rule_id) := by
  refine ⟨?_, ?_, ?_⟩
  · intro framework_name f g h
    simp only [map_semgrep_to_categories, map_scanner_finding_to_categories, h]
  · intro framework_name f h
    simp only [map_bandit_to_categories, assocGetD, h, Option.map_none',
      Option.getD_none]
  · intro rule_id h1 h2 h3 h4 h5 h6 h7 h8 h9
    simp [semgrep_check_type, h1, h2, h3, h4, h5, h6, h7, h8, h9]

theorem fallback_semgrep_rule_id_only_bandit_identity_witness :
    map_bandit_to_categories "OWASP" c6_bandit_finding =
      map_scanner_finding_to_categories "OWASP"
        (pyToLower (c6_bandit_finding.type.getD ""))
        (pyToLower (c6_bandit_finding.severity.getD "")) ∧
    semgrep_check_type "cve-2024-001" = "cve-2024-001" :=
  ⟨fallback_semgrep_rule_id_only_bandit_identity.2.1 "OWASP"
      c6_bandit_finding (by decide),
   fallback_semgrep_rule_id_only_bandit_identity.2.2 "cve-2024-001"
      (by decide) (by decide) (by decide) (by decide) (by decide) (by decide)
      (by decide) (by decide) (by decide)⟩

set_option maxRecDepth 8000 in
/-- Claim C7 counterexample: in the spec §8 scenario (one critical
hardcoded-SQL bandit finding under OWASP), the computed overall score is
4867/50 = 97.34, not 97.5, and OWASP does not have 10 High-priority
categories: 8 are High and 2 (A09, A10) are Medium, so the normalized
weights are not uniform. -/
theorem owasp_b608_scenario_overall_not_97_5 :
    calculate_overall_score (scoresAsEntries (calculate_category_scores
      "OWASP" (categorize_findings "OWASP" c7_findings))) = 4867/50 ∧
    (4867/50 : ℚ) ≠ 975/10 ∧
    ((get_categories_for_framework "OWASP").filter
      (fun p => p.2.priority = "High")).length = 8 ∧
    ((get_categories_for_framework "OWASP").filter
      (fun p => p.2.priority = "Medium")).length = 2 := by
  decide

set_option maxRecDepth 8000 in
/-- Claim C7 (amended): the scenario finding is categorized into exactly
A03 with one CRITICAL entry; `score_category` for A03 is 75.0 and every
other category scores 100 with no issues; with 8 High-priority and 2
Medium-priority (A09, A10) OWASP categories the weighted overall score is
round((75·0.50 + 7·100·0.50 + 2·100·0.35) / 4.70, 2) = 97.34. -/
theorem owasp_b608_scenario_pipeline :
    categorize_findings "OWASP" c7_findings = [("A03", [c7_entry])] ∧
    ((calculate_category_scores "OWASP"
        (categorize_findings "OWASP" c7_findings)).find?
      (fun p => p.1 = "A03")).map (fun p => (p.2.score, p.2.critical)) =
      some (75, 1) ∧
    (∀ p ∈ calculate_category_scores "OWASP"
        (categorize_findings "OWASP" c7_findings),
      p.1 ≠ "A03" → p.2.score = 100 ∧ p.2.total_issues = 0) ∧
    calculate_overall_score (scoresAsEntries (calculate_category_scores
      "OWASP" (categorize_findings "OWASP" c7_findings))) = 4867/50 := by
  decide

/-- Claim C8 counterexample: under the interleaving in which both workers
read the scan row before either writes (spec §8's same-instant
completion), the final `findings` map contains only the DAST result — the
SAST merge is lost, because each worker writes back the whole map it
read, not just its own key. -/
theorem concurrent_merge_lost_update :
    (runMergeSchedule [] "sastResults" "dastResults"
      lostUpdateSchedule).shared = [("dast", "dastResults")] ∧
    ((runMergeSchedule [] "sastResults" "dastResults"
      lostUpdateSchedule).shared.find? (fun p => p.1 = "sast")) = none := by
  decide

/-- Claim C8 (amended): each worker's merge is an unsynchronized
read-modify-write that writes the entire findings map back with its own
key updated. When the two merges are serialized the final record contains
both types' findings, but in the interleaving where both reads precede
the writes the first writer's findings are lost; and the merge path never
changes the scan status, so the status does not reach `complete` through
it at all. -/
theorem merge_is_whole_map_write_back :
    (∀ s d : ResultBlob,
      (runMergeSchedule [] s d serializedSchedule).shared =
        [("sast", s), ("dast", d)]) ∧
    (∀ s d : ResultBlob,
      (runMergeSchedule [] s d lostUpdateSchedule).shared = [("dast", d)]) ∧
    (∀ (r : ScanRecord) (c w : ResultBlob),
      (merge_dast_result r c w).status = r.status) :=
  ⟨fun s d => rfl, fun s d => rfl, fun r c w => rfl⟩

/-- Claim C9: for a recognized framework name, the key list of
`calculate_category_scores` is exactly the category-id list of that
framework: every framework category receives an entry — scoring 100 with
no issues when it has no findings — and any key of the input map that is
not a framework category id is absent from the result. -/
theorem category_scores_key_set (framework_name : String)
    (cf : List (String × List CategorizedFinding))
    (h : is_recognized_framework framework_name = true) :
    ((calculate_category_scores framework_name cf).map Prod.fst =
      (get_categories_for_framework framework_name).map (fun p => p.2.id)) ∧
    (∀ k, k ∉ (get_categories_for_framework framework_name).map
        (fun p => p.2.id) →
      (calculate_category_scores framework_name cf).find?
        (fun p => p.1 = k) = none) ∧
    (∀ (k : String) (cd : CategoryDef),
      (k, cd) ∈ get_categories_for_framework framework_name →
      findingsFor cf cd.id = [] →
      (cd.id, score_category_data cd []) ∈
        calculate_category_scores framework_name cf) := by
  refine ⟨?_, ?_, ?_⟩
  · unfold calculate_category_scores
    rw [List.map_map]
    rfl
  · intro k hk
    rw [List.find?_eq_none]
    intro x hx
    unfold calculate_category_scores at hx
    rw [List.mem_map] at hx
    obtain ⟨p, hp, rfl⟩ := hx
    simp only [decide_eq_true_eq]
    intro hcontra
    exact hk (List.mem_map.mpr ⟨p, hp, hcontra⟩)
  · intro k cd hmem hempty
    unfold calculate_category_scores
    exact List.mem_map.mpr ⟨(k, cd), hmem, by simp [hempty]⟩

theorem category_scores_key_set_witness :
    is_recognized_framework "OWASP" = true ∧
    (calculate_category_scores "OWASP" []).map Prod.fst =
      (get_categories_for_framework "OWASP").map (fun p => p.2.id) :=
  ⟨by decide, (category_scores_key_set "OWASP" [] (by decide)).1⟩

/-- Claim C10: `calculate_overall_score` weighs an entry whose priority is
missing or not one of High / Medium / Low with the Medium weight 0.35,
takes an entry's missing score as 0, and (being a total function over
these dict entries) never raises on malformed entries — a map holding one
entry with both fields missing yields 0·0.35 / 0.35 = 0. -/
theorem overall_score_malformed_entry_defaults :
    (∀ e : ScoreEntry, e.priority = none → entry_weight e = 35/100) ∧
    (∀ (e : ScoreEntry) (p : String), e.priority = some p → p ≠ "High" →
      p ≠ "Medium" → p ≠ "Low" → entry_weight e = 35/100) ∧
    (∀ e : ScoreEntry, e.score = none → entry_score e = 0) ∧
    calculate_overall_score [("x", { priority := none, score := none })] = 0 := by
  refine ⟨?_, ?_, ?_, by decide⟩
  · intro e h
    simp [entry_weight, h, priority_weights, List.find?]
  · intro e p h h1 h2 h3
    simp [entry_weight, h, priority_weights, List.find?,
      Ne.symm h1, Ne.symm h2, Ne.symm h3]
  · intro e h
    simp [entry_score, h]

theorem overall_score_malformed_entry_defaults_witness :
    entry_weight { priority := none, score := none } = 35/100 ∧
    entry_weight { priority := some "Critical", score := some 50 } = 35/100 ∧
    entry_score { priority := none, score := none } = 0 :=
  ⟨overall_score_malformed_entry_defaults.1 _ rfl,
   overall_score_malformed_entry_defaults.2.1 _ "Critical" rfl (by decide)
      (by decide) (by decide),
   overall_score_malformed_entry_defaults.2.2.1 _ rfl⟩

end Proofs

end SecureAssess
